import Mathlib

/-
  Verification development for the vibe-checker Slack application.

  Shallow embedding of the data model (src/src/models/*.py), the service
  operations (src/src/services/*.py), the transaction wrapper
  (src/src/database/session.py), the admin-auth decorator
  (src/src/app_factory.py) and the Slack retry wrapper
  (src/src/utils/slack_retry.py).

  Conventions of the embedding:
  * SQL rows are Lean structures; a table is a `List` of rows; the database
    is a structure of tables.
  * Calendar dates (`Date` columns) are modelled as `Nat` day numbers,
    times-of-day (`Time` columns) as `Nat × Nat` (hour, minute).
  * Nullable text columns are `Option String`; Python truthiness of a
    nullable string (None and "" are falsy) is made explicit.
  * The nullable 1-5 rating columns are `Option Int`; Python truthiness of
    a nullable integer (None and 0 are falsy) is made explicit.
-/

namespace VC

/-- Row of the `standup_responses` table (src/src/models/standup_response.py). -/
structure StandupResponse where
  id : Nat
  client_id : Nat
  workspace_id : Nat
  scheduled_date : Nat
  accomplishments : Option String
  working_on : Option String
  blockers : Option String
  message_ts : Option String
  response_time_seconds : Option Int
deriving Repr, DecidableEq

/-- Row of the `feedback_responses` table (src/src/models/feedback_response.py).
Note: this table declares no uniqueness constraint on (client_id, week_ending),
unlike `standup_responses`. -/
structure FeedbackResponse where
  id : Nat
  client_id : Nat
  workspace_id : Nat
  week_ending : Nat
  feeling_rating : Option Int
  feeling_text : Option String
  improvements : Option String
  blockers : Option String
  satisfaction_rating : Option Int
  response_time_seconds : Option Int
  message_ts : Option String
  vibe_channel_message_ts : Option String
deriving Repr, DecidableEq

/-- Row of the `clients` table (src/src/models/client.py). -/
structure Client where
  id : Nat
  workspace_id : Nat
  slack_user_id : String
  display_name : Option String
  email : Option String
  timezone : String
  is_active : Bool
deriving Repr, DecidableEq

/-- Row of the `standup_configs` table (src/src/models/standup_config.py);
`client_id` carries a unique constraint (1:1 with clients). -/
structure StandupConfig where
  id : Nat
  client_id : Nat
  schedule_type : String
  schedule_time : Nat × Nat
  is_paused : Bool
  custom_questions : Option String
deriving Repr, DecidableEq

/-- Row of the `feedback_configs` table (src/src/models/feedback_config.py). -/
structure FeedbackConfig where
  id : Nat
  client_id : Nat
  schedule_time : Nat × Nat
  is_enabled : Bool
  custom_questions : Option String
deriving Repr, DecidableEq

/-- The relational state: the five client-side tables of the schema
(workspaces are handled through the bot-token environment, see
`send_standup_dm`). -/
structure DB where
  clients : List Client
  standup_configs : List StandupConfig
  feedback_configs : List FeedbackConfig
  standup_responses : List StandupResponse
  feedback_responses : List FeedbackResponse
deriving Repr, DecidableEq

/-- Truthiness test of a nullable rating (`x` in a Python boolean context:
None and 0 are falsy) combined with `x <= b`, as written in the
`needs_attention` property. -/
def ratingAtMost (r : Option Int) (b : Int) : Bool :=
  match r with
  | none => false
  | some v => v != 0 && decide (v ≤ b)

/-- Truthiness test of a nullable rating combined with `x >= b`, as written
in the `is_positive` property. -/
def ratingAtLeast (r : Option Int) (b : Int) : Bool :=
  match r with
  | none => false
  | some v => v != 0 && decide (b ≤ v)

/-- Python `str.strip()`: the string without its leading and trailing
whitespace. -/
def pyStrip (s : String) : String :=
  ⟨((s.data.dropWhile Char.isWhitespace).reverse.dropWhile Char.isWhitespace).reverse⟩

/-- Embeds `FeedbackResponse.has_concerns`:
`bool(self.blockers and self.blockers.strip())`. -/
def FeedbackResponse.has_concerns (r : FeedbackResponse) : Bool :=
  match r.blockers with
  | none => false
  | some s => s != "" && pyStrip s != ""

/-- Embeds `FeedbackResponse.is_positive`:
`(feeling_rating and feeling_rating >= 4) and (satisfaction_rating and satisfaction_rating >= 4)`. -/
def FeedbackResponse.is_positive (r : FeedbackResponse) : Bool :=
  ratingAtLeast r.feeling_rating 4 && ratingAtLeast r.satisfaction_rating 4

/-- Embeds `FeedbackResponse.needs_attention`:
`(feeling_rating and feeling_rating <= 2) or (satisfaction_rating and satisfaction_rating <= 2) or self.has_concerns`. -/
def FeedbackResponse.needs_attention (r : FeedbackResponse) : Bool :=
  ratingAtMost r.feeling_rating 2 || ratingAtMost r.satisfaction_rating 2 ||
    r.has_concerns

/-- Embeds `StandupResponse.has_blockers`:
`bool(self.blockers and self.blockers.strip())`. -/
def StandupResponse.has_blockers (r : StandupResponse) : Bool :=
  match r.blockers with
  | none => false
  | some s => s != "" && pyStrip s != ""

/-- The key test of the `uq_standup_client_date` unique constraint of
`standup_responses`: does the table already hold a row with this
(client_id, scheduled_date) pair? -/
def standup_key_clash (rows : List StandupResponse) (cid d : Nat) : Bool :=
  rows.any (fun r => r.client_id == cid && r.scheduled_date == d)

/-- Embeds `save_standup_response` (src/src/services/standup_service.py):
inside `db_transaction`, a new row is added and the commit enforces the
`uq_standup_client_date` unique constraint — a duplicate key makes the
commit fail, the transaction roll back (table unchanged) and the flag
`false` report the failed insert. -/
def save_standup_response (db : DB) (r : StandupResponse) : DB × Bool :=
  if standup_key_clash db.standup_responses r.client_id r.scheduled_date then
    (db, false)
  else
    ({ db with standup_responses := db.standup_responses ++ [r] }, true)

/-- Embeds `save_feedback_response` (src/src/services/feedback_service.py):
inside `db_transaction`, a new row is added unconditionally; the
`feedback_responses` table declares no uniqueness constraint, so the commit
always stores the row. -/
def save_feedback_response (db : DB) (r : FeedbackResponse) : DB :=
  { db with feedback_responses := db.feedback_responses ++ [r] }

/-- Uniqueness invariant of the `uq_standup_client_date` constraint: no two
rows of the table share a (client_id, scheduled_date) pair. -/
def standupUnique (rows : List StandupResponse) : Prop :=
  rows.Pairwise
    (fun a b => ¬ (a.client_id = b.client_id ∧ a.scheduled_date = b.scheduled_date))

/-- Number of `feedback_responses` rows holding a given
(client_id, week_ending) pair. -/
def feedback_rows_for (rows : List FeedbackResponse) (cid w : Nat) : Nat :=
  (rows.filter (fun r => r.client_id == cid && r.week_ending == w)).length

/-- Write operation buffered in a session: the sessions are created with
autocommit=False and autoflush=False (src/src/database/session.py), so writes
take effect on the database only at commit. -/
inductive Op
  | insertStandup : StandupResponse → Op
  | insertFeedback : FeedbackResponse → Op
  | setStandupPaused : Nat → Bool → Op
deriving Repr, DecidableEq

/-- Effect of one buffered write at commit time. -/
def applyOp (db : DB) : Op → DB
  | .insertStandup r => { db with standup_responses := db.standup_responses ++ [r] }
  | .insertFeedback r => { db with feedback_responses := db.feedback_responses ++ [r] }
  | .setStandupPaused cid v =>
      { db with standup_configs := db.standup_configs.map (fun k => if k.client_id == cid then { k with is_paused := v } else k) }

/-- Effect of committing a buffer of writes, in order. -/
def applyOps (db : DB) (ops : List Op) : DB := ops.foldl applyOp db

/-- Embeds `db_transaction` (src/src/database/session.py): run the body on a
fresh session; when the body raises, `session.rollback()` discards the
buffered writes (the database keeps its initial state) and the exception is
re-raised (`some e`); when the body returns its buffered writes, the
`session.commit()` applies them (`none` raised). -/
def db_transaction (db : DB) (body : DB → Except String (List Op)) :
    DB × Option String :=
  match body db with
  | .ok ops => (applyOps db ops, none)
  | .error e => (db, some e)

/-- Inbound admin-dashboard request: the optional `X-Admin-Key` header and
the optional `key` query parameter. -/
structure AdminRequest where
  header_key : Option String
  query_key : Option String
deriving Repr, DecidableEq

/-- Outcome of a request to an admin endpoint guarded by
`require_admin_auth`: an unhandled exception surfaced as the web server's
500 response, the 503 not-configured page, the 401 page, the 403 JSON
error, or running the wrapped handler. -/
inductive AuthResult
  | serverError
  | notConfigured
  | unauthorized
  | forbidden
  | handlerRun
deriving Repr, DecidableEq

/-- Field names the Config dataclass declares (src/src/config.py): the
three Slack credentials, the database URL, the encryption key, the optional
bot token, the application settings and the feature flags. `from_env` fills
exactly these. -/
def config_field_names : List String :=
  ["SLACK_CLIENT_ID", "SLACK_CLIENT_SECRET", "SLACK_SIGNING_SECRET",
   "DATABASE_URL", "ENCRYPTION_KEY", "SLACK_BOT_TOKEN", "PORT", "LOG_LEVEL",
   "RAILWAY_STATIC_URL", "ENABLE_REMINDERS", "REMINDER_DELAY_HOURS",
   "DATA_RETENTION_DAYS"]

/-- Python attribute access on the global `config` object: a declared field
yields its value (`none` standing for a falsy None), any other name raises
AttributeError — a plain dataclass has no attribute fallback. `values`
assigns each declared field the value `from_env` gave it. -/
def config_getattr (values : String → Option String) (name : String) :
    Except String (Option String) :=
  if name ∈ config_field_names then .ok (values name) else .error "AttributeError"

/-- Python `a or b` on two nullable strings: `a` unless `a` is falsy
(None or the empty string). -/
def pyOrStr (a b : Option String) : Option String :=
  match a with
  | none => b
  | some s => if s = "" then b else some s

/-- The key supplied with a request:
`request.headers.get('X-Admin-Key') or request.args.get('key')`. -/
def provided_key (req : AdminRequest) : Option String :=
  pyOrStr req.header_key req.query_key

/-- Embeds `require_admin_auth` (src/src/app_factory.py). Its first step,
`if not config.ADMIN_API_KEY:` (line 21), evaluates the attribute
ADMIN_API_KEY on the Config dataclass; no handler wraps the decorator body,
so an AttributeError propagates to the web server as a 500 (`serverError`).
The remaining branches transcribe the decorator's text: 503 when the key is
falsy (None or empty), 401 when the supplied key is falsy (absent or
empty), 403 when `secrets.compare_digest` finds the supplied key different
from the configured one, and the wrapped handler otherwise; `compare_digest`
is modelled by string equality (its constant-time execution is a timing
property outside this embedding). -/
def require_admin_auth (values : String → Option String) (req : AdminRequest) :
    AuthResult :=
  match config_getattr values "ADMIN_API_KEY" with
  | .error _ => .serverError
  | .ok none => .notConfigured
  | .ok (some k) =>
    if k = "" then .notConfigured
    else
      match provided_key req with
      | none => .unauthorized
      | some p =>
        if p = "" then .unauthorized
        else if p = k then .handlerRun
        else .forbidden

/-- Chat message posted to Slack: target channel (here the client's user id)
and fallback text. -/
structure SentMessage where
  channel : String
  text : String
deriving Repr, DecidableEq

/-- Client lookup `session.query(Client).filter_by(id=client_id).first()`. -/
def findClient (db : DB) (cid : Nat) : Option Client :=
  db.clients.find? (fun c => c.id == cid)

/-- Existing-response lookup of `send_standup_dm`:
`query(StandupResponse).filter_by(client_id=..., scheduled_date=today).first()`. -/
def find_standup_for (rows : List StandupResponse) (cid d : Nat) :
    Option StandupResponse :=
  rows.find? (fun r => r.client_id == cid && r.scheduled_date == d)

/-- Existing-response lookup of `send_feedback_dm`:
`query(FeedbackResponse).filter_by(client_id=..., week_ending=...).first()`. -/
def find_feedback_for (rows : List FeedbackResponse) (cid w : Nat) :
    Option FeedbackResponse :=
  rows.find? (fun r => r.client_id == cid && r.week_ending == w)

/-- Embeds `send_standup_dm` (src/src/services/standup_service.py).
`bot_tokens` is the environment seen through `get_bot_token`
(workspace lookup plus Fernet decryption in workspace_service.py). The
function performs no database write; it returns the (unchanged) database
and the list of chat messages posted: none when the client is missing or
inactive, the token is missing or empty, or a StandupResponse already
exists for (client, today). -/
def send_standup_dm (db : DB) (bot_tokens : Nat → Option String) (today : Nat)
    (workspace_id client_id : Nat) : DB × List SentMessage :=
  match findClient db client_id with
  | none => (db, [])
  | some c =>
    if !c.is_active then (db, [])
    else
      match bot_tokens workspace_id with
      | none => (db, [])
      | some tok =>
        if tok = "" then (db, [])
        else
          match find_standup_for db.standup_responses client_id today with
          | some _ => (db, [])
          | none => (db, [⟨c.slack_user_id, "Time for your daily standup!"⟩])

/-- Embeds `send_feedback_dm` (src/src/services/feedback_service.py); the
week-ending key is `today` (the code sets `week_ending = today`). Like the
standup path it writes nothing and no-ops when a FeedbackResponse already
exists for (client, week_ending). -/
def send_feedback_dm (db : DB) (bot_tokens : Nat → Option String) (today : Nat)
    (workspace_id client_id : Nat) : DB × List SentMessage :=
  match findClient db client_id with
  | none => (db, [])
  | some c =>
    if !c.is_active then (db, [])
    else
      match bot_tokens workspace_id with
      | none => (db, [])
      | some tok =>
        if tok = "" then (db, [])
        else
          match find_feedback_for db.feedback_responses client_id today with
          | some _ => (db, [])
          | none => (db, [⟨c.slack_user_id, "Time for your weekly vibe check!"⟩])

/-- Application state: the database plus the APScheduler job set (job ids;
the scheduler keys at most one job per id). -/
structure AppState where
  db : DB
  jobs : List String
deriving Repr, DecidableEq

/-- Embeds `Client.job_id_standup` and the id built in `remove_standup_job`:
the deterministic id `standup_{workspace_id}_{client_id}`. -/
def job_id_standup (workspace_id client_id : Nat) : String :=
  "standup_" ++ toString workspace_id ++ "_" ++ toString client_id

/-- Embeds `Client.job_id_feedback` and the id built in `remove_feedback_job`:
the deterministic id `feedback_{workspace_id}_{client_id}`. -/
def job_id_feedback (workspace_id client_id : Nat) : String :=
  "feedback_" ++ toString workspace_id ++ "_" ++ toString client_id

/-- Removal of a job by id (`scheduler.remove_job(job_id)` guarded by
`scheduler.get_job(job_id)`): drops the job carrying the id, a no-op when
absent. -/
def removeJobId (jobs : List String) (jid : String) : List String :=
  jobs.filter (fun j => j != jid)

/-- Standup-config lookup through the 1:1 `client.standup_config`
relationship (client_id is unique in standup_configs). -/
def findStandupConfig (db : DB) (cid : Nat) : Option StandupConfig :=
  db.standup_configs.find? (fun k => k.client_id == cid)

/-- Embeds `add_standup_job` (src/src/services/scheduler_service.py): the
existing job with the client's standup id is removed first; a job is then
added when the schedule type is valid ('daily' or 'monday_only'), otherwise
the function returns with the job left removed. -/
def add_standup_job (db : DB) (jobs : List String) (cfg : StandupConfig) :
    List String :=
  match findClient db cfg.client_id with
  | none => jobs
  | some c =>
    let jid := job_id_standup c.workspace_id c.id
    let jobs' := removeJobId jobs jid
    if cfg.schedule_type = "daily" || cfg.schedule_type = "monday_only" then
      jobs' ++ [jid]
    else jobs'

/-- Update of `client.standup_config.is_paused` through the 1:1
relationship: the config row keyed by the client id gets the new flag. -/
def setPausedFor (cfgs : List StandupConfig) (cid : Nat) (v : Bool) :
    List StandupConfig :=
  cfgs.map (fun k => if k.client_id == cid then { k with is_paused := v } else k)

/-- Embeds `pause_client_standups` (src/src/services/client_service.py):
when the client exists and has a standup config, set `is_paused`, remove the
standup job, return `true`; otherwise return `false` with nothing changed. -/
def pause_client_standups (st : AppState) (client_id : Nat) : AppState × Bool :=
  match findClient st.db client_id with
  | none => (st, false)
  | some c =>
    match findStandupConfig st.db client_id with
    | none => (st, false)
    | some _ =>
      (⟨{ st.db with standup_configs := setPausedFor st.db.standup_configs client_id true },
        removeJobId st.jobs (job_id_standup c.workspace_id client_id)⟩, true)

/-- Embeds `resume_client_standups` (src/src/services/client_service.py):
when the client exists and has a standup config, clear `is_paused`, re-add
the standup job from the updated config, return `true`; otherwise `false`. -/
def resume_client_standups (st : AppState) (client_id : Nat) : AppState × Bool :=
  match findClient st.db client_id with
  | none => (st, false)
  | some _ =>
    match findStandupConfig st.db client_id with
    | none => (st, false)
    | some cfg =>
      let db' : DB :=
        { st.db with standup_configs := setPausedFor st.db.standup_configs client_id false }
      (⟨db', add_standup_job db' st.jobs { cfg with is_paused := false }⟩, true)

/-- Embeds `remove_client` (src/src/services/client_service.py): when the
client exists, remove its two scheduled jobs and delete the client row —
the `ondelete='CASCADE'` foreign keys and `cascade='all, delete-orphan'`
relationships take every config and response row of the client with it —
and return `true`; for an unknown id return `false` with nothing changed. -/
def remove_client (st : AppState) (client_id : Nat) : AppState × Bool :=
  match findClient st.db client_id with
  | none => (st, false)
  | some c =>
    (⟨{ clients := st.db.clients.filter (fun k => k.id != client_id)
        standup_configs := st.db.standup_configs.filter (fun k => k.client_id != client_id)
        feedback_configs := st.db.feedback_configs.filter (fun k => k.client_id != client_id)
        standup_responses := st.db.standup_responses.filter (fun k => k.client_id != client_id)
        feedback_responses := st.db.feedback_responses.filter (fun k => k.client_id != client_id) },
      removeJobId (removeJobId st.jobs (job_id_standup c.workspace_id client_id))
        (job_id_feedback c.workspace_id client_id)⟩, true)

/-- Outcome of one `chat_postMessage` call attempt: success, a
`SlackApiError` carrying the response's error string and the optional
Retry-After header value, or a non-Slack exception (network error). -/
inductive CallResult
  | ok : Nat → CallResult
  | slackErr : String → Option Nat → CallResult
  | netErr : CallResult
deriving Repr, DecidableEq

/-- Final outcome of the posting step: a successful response or a raised
error (non-Slack exceptions raise under the marker "exception"). -/
inductive ROutcome
  | success : Nat → ROutcome
  | raised : String → ROutcome
deriving Repr, DecidableEq

/-- Observable run of the posting step: final outcome, the sleeps performed
(seconds, in call order) and the number of calls made. -/
structure RunResult where
  outcome : ROutcome
  sleeps : List ℚ
  calls : Nat
deriving Repr, DecidableEq

/-- Slack error strings the wrapper retries with backoff
(src/src/utils/slack_retry.py line 64). -/
def transient_errors : List String := ["internal_error", "service_unavailable", "timeout"]

/-- Delay on a rate-limited response:
`min(int(headers.get('Retry-After', base_delay)), max_delay)` with
base_delay = 1 and max_delay = 30; no jitter on this branch. -/
def rateLimitDelay (retry_after : Option Nat) : ℚ :=
  min ((retry_after.getD 1 : Nat) : ℚ) 30

/-- Delay on a transient error or non-Slack exception:
`min(base_delay * exponential_base ** attempt, max_delay)` scaled by the
jitter factor `0.5 + random.random()`, with base_delay = 1,
exponential_base = 2, max_delay = 30; `jit attempt` stands for the
`random.random()` draw of the attempt. -/
def backoffDelay (jit : Nat → ℚ) (attempt : Nat) : ℚ :=
  min ((2 : ℚ) ^ attempt) 30 * (1 / 2 + jit attempt)

/-- Embeds the loop of `slack_api_retry` (src/src/utils/slack_retry.py).
`beh n` is the outcome of the call at attempt `n`; `fuel` is the number of
retries still allowed (`max_retries - attempt`). A success returns; a
rate-limited or transient Slack error and a non-Slack exception sleep the
prescribed delay and retry while retries remain, raising once they run out;
every other Slack error raises at once. -/
def slack_api_retry (beh : Nat → CallResult) (jit : Nat → ℚ) :
    Nat → Nat → RunResult
  | attempt, 0 =>
    match beh attempt with
    | .ok v => ⟨.success v, [], 1⟩
    | .slackErr e _ => ⟨.raised e, [], 1⟩
    | .netErr => ⟨.raised "exception", [], 1⟩
  | attempt, fuel + 1 =>
    match beh attempt with
    | .ok v => ⟨.success v, [], 1⟩
    | .slackErr e ra =>
      if e = "ratelimited" then
        let r := slack_api_retry beh jit (attempt + 1) fuel
        ⟨r.outcome, rateLimitDelay ra :: r.sleeps, r.calls + 1⟩
      else if e ∈ transient_errors then
        let r := slack_api_retry beh jit (attempt + 1) fuel
        ⟨r.outcome, backoffDelay jit attempt :: r.sleeps, r.calls + 1⟩
      else ⟨.raised e, [], 1⟩
    | .netErr =>
      let r := slack_api_retry beh jit (attempt + 1) fuel
      ⟨r.outcome, backoffDelay jit attempt :: r.sleeps, r.calls + 1⟩

/-- Embeds `send_message_with_retry`: the retry wrapper instantiated with
max_retries = 3, starting at attempt 0. -/
def send_message_with_retry (beh : Nat → CallResult) (jit : Nat → ℚ) : RunResult :=
  slack_api_retry beh jit 0 3

/-- Posting step of `send_standup_dm` (src/src/services/standup_service.py
line 53): the chat message goes through `send_message_with_retry`. -/
def standup_post (beh : Nat → CallResult) (jit : Nat → ℚ) : RunResult :=
  send_message_with_retry beh jit

/-- Posting step of `send_feedback_dm` (src/src/services/feedback_service.py
line 55): a single direct `chat_postMessage` call, not wrapped in the
retry helper (the Slack error is then caught and logged by the enclosing
`except SlackApiError` clause). -/
def feedback_post (beh : Nat → CallResult) : RunResult :=
  match beh 0 with
  | .ok v => ⟨.success v, [], 1⟩
  | .slackErr e _ => ⟨.raised e, [], 1⟩
  | .netErr => ⟨.raised "exception", [], 1⟩

/-- Delay the retry policy prescribes for the outcome of the call at a given
attempt: the capped Retry-After hint on rate limiting, capped exponential
backoff with jitter on transient errors and exceptions. -/
def policyDelay (beh : Nat → CallResult) (jit : Nat → ℚ) (attempt : Nat) : ℚ :=
  match beh attempt with
  | .ok _ => 0
  | .slackErr e ra =>
    if e = "ratelimited" then rateLimitDelay ra else backoffDelay jit attempt
  | .netErr => backoffDelay jit attempt

/-- Sample feedback row with both ratings at 1 and the blockers text "none"
(the example of the spec). -/
def fb_c9 : FeedbackResponse :=
  { id := 1, client_id := 1, workspace_id := 1, week_ending := 7,
    feeling_rating := some 1, feeling_text := some "", improvements := some "",
    blockers := some "none", satisfaction_rating := some 1,
    response_time_seconds := some 12, message_ts := some "1700000000.000100",
    vibe_channel_message_ts := none }

/-- Sample feedback row with both ratings at 5 and a non-whitespace blockers
text. -/
def fb_c10 : FeedbackResponse :=
  { id := 2, client_id := 1, workspace_id := 1, week_ending := 7,
    feeling_rating := some 5, feeling_text := some "great week", improvements := some "",
    blockers := some "stuck on X", satisfaction_rating := some 5,
    response_time_seconds := some 45, message_ts := some "1700000000.000200",
    vibe_channel_message_ts := none }

/-- Sample standup row for client 1 on day 5. -/
def r_c1a : StandupResponse :=
  { id := 1, client_id := 1, workspace_id := 1, scheduled_date := 5,
    accomplishments := some "shipped the report", working_on := some "docs",
    blockers := none, message_ts := some "1700000000.000300",
    response_time_seconds := some 30 }

/-- Second standup row for the same client and day (duplicate key). -/
def r_c1b : StandupResponse :=
  { r_c1a with id := 2, accomplishments := some "shipped it twice" }

/-- Database holding one standup response for (client 1, day 5). -/
def db_c1 : DB :=
  { clients := [], standup_configs := [], feedback_configs := [],
    standup_responses := [r_c1a], feedback_responses := [] }

/-- Sample feedback row for client 1, week ending day 7. -/
def f_c2a : FeedbackResponse :=
  { id := 3, client_id := 1, workspace_id := 1, week_ending := 7,
    feeling_rating := some 4, feeling_text := some "", improvements := some "",
    blockers := none, satisfaction_rating := some 4,
    response_time_seconds := some 20, message_ts := some "1700000000.000400",
    vibe_channel_message_ts := none }

/-- Second feedback row for the same client and week-ending date. -/
def f_c2b : FeedbackResponse :=
  { f_c2a with id := 4, feeling_rating := some 2 }

/-- Database holding one feedback response for (client 1, week 7). -/
def db_c2 : DB :=
  { clients := [], standup_configs := [], feedback_configs := [],
    standup_responses := [], feedback_responses := [f_c2a] }

/-- Empty database used by the transaction example. -/
def db_c7 : DB :=
  { clients := [], standup_configs := [], feedback_configs := [],
    standup_responses := [], feedback_responses := [] }

/-- Transaction body that raises. -/
def body_c7 : DB → Except String (List Op) := fun _ => .error "IntegrityError"

/-- Active client used by the dispatch example. -/
def cl_c4 : Client :=
  { id := 1, workspace_id := 9, slack_user_id := "U200", display_name := some "Bea",
    email := none, timezone := "UTC", is_active := true }

/-- Database where client 1 already answered the standup of day 5 and the
feedback of week 7. -/
def db_c4 : DB :=
  { clients := [cl_c4], standup_configs := [], feedback_configs := [],
    standup_responses := [{ r_c1a with workspace_id := 9 }],
    feedback_responses := [{ f_c2a with workspace_id := 9 }] }

/-- Bot-token environment that always finds a token. -/
def tok_c4 : Nat → Option String := fun _ => some "xoxb-token"

/-- Active client of workspace 2 used by the pause/resume example. -/
def cl_c5 : Client :=
  { id := 1, workspace_id := 2, slack_user_id := "U100", display_name := some "Ada",
    email := none, timezone := "UTC", is_active := true }

/-- Daily 09:00 standup config of that client. -/
def cfg_c5 : StandupConfig :=
  { id := 1, client_id := 1, schedule_type := "daily", schedule_time := (9, 0),
    is_paused := false, custom_questions := none }

/-- State with the client, its config and its scheduled job. -/
def st_c5 : AppState :=
  { db := { clients := [cl_c5], standup_configs := [cfg_c5], feedback_configs := [],
            standup_responses := [], feedback_responses := [] },
    jobs := ["standup_2_1"] }

/-- Client removed in the removal example. -/
def cl_c6 : Client :=
  { id := 1, workspace_id := 2, slack_user_id := "U300", display_name := some "Cal",
    email := none, timezone := "UTC", is_active := true }

/-- Unrelated client that must survive the removal. -/
def cl_c6other : Client :=
  { id := 9, workspace_id := 2, slack_user_id := "U301", display_name := none,
    email := none, timezone := "UTC", is_active := true }

/-- State with two clients, the configs, responses and jobs of client 1 and
a job of client 9. -/
def st_c6 : AppState :=
  { db := { clients := [cl_c6, cl_c6other],
            standup_configs := [{ id := 1, client_id := 1, schedule_type := "daily",
                                  schedule_time := (9, 0), is_paused := false,
                                  custom_questions := none }],
            feedback_configs := [{ id := 1, client_id := 1, schedule_time := (15, 0),
                                   is_enabled := true, custom_questions := none }],
            standup_responses := [r_c1a],
            feedback_responses := [f_c2a] },
    jobs := ["standup_2_1", "feedback_2_1", "standup_2_9"] }

/-- Jitter draws fixed at 0. -/
def jit_zero : Nat → ℚ := fun _ => 0

/-- Call behaviour: the first attempt hits a transient server error, every
later attempt succeeds. -/
def beh_c3 : Nat → CallResult :=
  fun n => if n == 0 then .slackErr "internal_error" none else .ok 1

/-- Call behaviour: every attempt fails with a non-retryable auth error. -/
def beh_c3w : Nat → CallResult := fun _ => .slackErr "invalid_auth" none

/- Claim theorems and supporting lemmas. -/

/-- Lemma: `needs_attention` is true whenever the feeling rating is a truthy
value at most 2. -/
theorem needs_attention_of_low_feeling (r : FeedbackResponse) (v : Int)
    (hv : r.feeling_rating = some v) (h0 : v ≠ 0) (h2 : v ≤ 2) :
    r.needs_attention = true := by
  simp [FeedbackResponse.needs_attention, ratingAtMost, hv, h0, h2]

/-- C9: a feedback response with feeling_rating = 1 and
satisfaction_rating = 1 has `needs_attention` true, whatever the blockers
text holds (a rating of at most 2 on either scale suffices). -/
theorem C9_low_ratings_need_attention (r : FeedbackResponse)
    (h1 : r.feeling_rating = some 1) (_h2 : r.satisfaction_rating = some 1) :
    r.needs_attention = true := by
  simp [FeedbackResponse.needs_attention, ratingAtMost, h1]

/-- Witness for C9: the spec's example — ratings 1 and 1 with
blockers = "none" — is marked as needing attention. -/
theorem C9_low_ratings_need_attention_witness :
    fb_c9.needs_attention = true :=
  C9_low_ratings_need_attention fb_c9 rfl rfl

/-- C10: `is_positive` and `needs_attention` are not mutually exclusive —
the response with both ratings 5 and blockers "stuck on X" satisfies both,
because a non-empty blockers text alone raises `needs_attention`. -/
theorem C10_positive_and_attention_overlap :
    fb_c10.is_positive = true ∧ fb_c10.needs_attention = true := by
  constructor <;> decide

/-- C1: the `uq_standup_client_date` constraint keeps at most one standup
response per (client, scheduled_date): saving preserves the uniqueness
invariant, and an attempt to save a second row with an existing
(client, date) key fails with the table unchanged. -/
theorem C1_standup_response_unique (db : DB) (r : StandupResponse)
    (h : standupUnique db.standup_responses) :
    standupUnique (save_standup_response db r).1.standup_responses ∧
    ((∃ x ∈ db.standup_responses,
        x.client_id = r.client_id ∧ x.scheduled_date = r.scheduled_date) →
      save_standup_response db r = (db, false)) := by
  cases hcl : standup_key_clash db.standup_responses r.client_id r.scheduled_date with
  | true =>
    constructor
    · simpa [save_standup_response, hcl] using h
    · intro _
      simp [save_standup_response, hcl]
  | false =>
    have hall : ∀ x ∈ db.standup_responses,
        ¬(x.client_id = r.client_id ∧ x.scheduled_date = r.scheduled_date) := by
      intro x hx hxk
      have ht : standup_key_clash db.standup_responses r.client_id r.scheduled_date = true := by
        unfold standup_key_clash
        refine List.any_eq_true.mpr ⟨x, hx, ?_⟩
        simp [hxk.1, hxk.2]
      rw [hcl] at ht
      exact absurd ht (by decide)
    constructor
    · simp only [save_standup_response, hcl]
      simp only [Bool.false_eq_true, if_false]
      unfold standupUnique at h ⊢
      rw [List.pairwise_append]
      refine ⟨h, List.pairwise_singleton _ _, ?_⟩
      intro a ha b hb
      have hb' : b = r := by simpa using hb
      subst hb'
      exact hall a ha
    · intro hex
      obtain ⟨x, hx, h1, h2⟩ := hex
      exact absurd ⟨h1, h2⟩ (hall x hx)

/-- Witness for C1: with one response stored for (client 1, day 5), saving a
second row with the same key is rejected and the table stays unique. -/
theorem C1_standup_response_unique_witness :
    standupUnique (save_standup_response db_c1 r_c1b).1.standup_responses ∧
    ((∃ x ∈ db_c1.standup_responses,
        x.client_id = r_c1b.client_id ∧ x.scheduled_date = r_c1b.scheduled_date) →
      save_standup_response db_c1 r_c1b = (db_c1, false)) :=
  C1_standup_response_unique db_c1 r_c1b (by simp [standupUnique, db_c1])

/-- Counterexample for C2: the `feedback_responses` table carries no
uniqueness constraint — starting from one stored row for
(client 1, week 7), saving a second response with the same key stores a
second row (two rows for the pair). -/
theorem C2_counterexample_duplicate_stored :
    feedback_rows_for db_c2.feedback_responses 1 7 = 1 ∧
    feedback_rows_for (save_feedback_response db_c2 f_c2b).feedback_responses 1 7 = 2 := by
  decide

/-- C2 (amended): `save_feedback_response` inserts unconditionally — a save
always adds one row for its (client, week_ending) key, so when a row with
that key already exists the table ends up with at least two such rows. -/
theorem C2_amended_duplicate_rows (db : DB) (r : FeedbackResponse)
    (h : ∃ x ∈ db.feedback_responses,
      x.client_id = r.client_id ∧ x.week_ending = r.week_ending) :
    feedback_rows_for (save_feedback_response db r).feedback_responses
        r.client_id r.week_ending
      = feedback_rows_for db.feedback_responses r.client_id r.week_ending + 1 ∧
    2 ≤ feedback_rows_for (save_feedback_response db r).feedback_responses
        r.client_id r.week_ending := by
  have hsum : feedback_rows_for (save_feedback_response db r).feedback_responses
      r.client_id r.week_ending
      = feedback_rows_for db.feedback_responses r.client_id r.week_ending + 1 := by
    simp [save_feedback_response, feedback_rows_for, List.filter_append]
  refine ⟨hsum, ?_⟩
  obtain ⟨x, hx, h1, h2⟩ := h
  have hme : x ∈ db.feedback_responses.filter
      (fun y => y.client_id == r.client_id && y.week_ending == r.week_ending) := by
    simp [List.mem_filter, hx, h1, h2]
  have h1le : 1 ≤ feedback_rows_for db.feedback_responses r.client_id r.week_ending :=
    List.length_pos_of_mem hme
  omega

/-- Witness for C2 (amended): the duplicate save on the concrete database. -/
theorem C2_amended_duplicate_rows_witness :
    feedback_rows_for (save_feedback_response db_c2 f_c2b).feedback_responses
        f_c2b.client_id f_c2b.week_ending
      = feedback_rows_for db_c2.feedback_responses f_c2b.client_id f_c2b.week_ending + 1 ∧
    2 ≤ feedback_rows_for (save_feedback_response db_c2 f_c2b).feedback_responses
        f_c2b.client_id f_c2b.week_ending :=
  C2_amended_duplicate_rows db_c2 f_c2b (by decide)

/-- C7: `db_transaction` is atomic — a body that raises rolls the state back
to the initial database and re-raises the same exception; a body that
returns commits its buffered writes. -/
theorem C7_db_transaction_atomic (db : DB) (body : DB → Except String (List Op)) :
    (∀ e, body db = .error e → db_transaction db body = (db, some e)) ∧
    (∀ ops, body db = .ok ops → db_transaction db body = (applyOps db ops, none)) := by
  constructor
  · intro e he
    simp [db_transaction, he]
  · intro ops hops
    simp [db_transaction, hops]

/-- Witness for C7: a body raising "IntegrityError" leaves the database
unchanged and re-raises. -/
theorem C7_db_transaction_atomic_witness :
    db_transaction db_c7 body_c7 = (db_c7, some "IntegrityError") :=
  (C7_db_transaction_atomic db_c7 body_c7).1 "IntegrityError" rfl

/-- C8: the Config dataclass declares no ADMIN_API_KEY field and `from_env`
never reads that variable, so the decorator's first step — evaluating
`config.ADMIN_API_KEY` — raises AttributeError on every admin request,
whatever the environment gave the declared fields and whatever keys the
request supplies: every request to the admin endpoints gets a 500 and the
wrapped handler never runs; the claimed 401/403/handler gating (and the
decorator's own 503/401/403 branches) is unreachable. -/
theorem C8_admin_auth_attribute_error (values : String → Option String)
    (req : AdminRequest) :
    require_admin_auth values req = .serverError ∧
    require_admin_auth values req ≠ .handlerRun := by
  have hmem : ("ADMIN_API_KEY" : String) ∉ config_field_names := by decide
  have h : require_admin_auth values req = .serverError := by
    simp [require_admin_auth, config_getattr, hmem]
  exact ⟨h, by simp [h]⟩

/-- C4: dispatch is idempotent once a response exists — when a
StandupResponse for (client, today) is stored, `send_standup_dm` sends
nothing and leaves the database unchanged, and likewise `send_feedback_dm`
when a FeedbackResponse for (client, week ending today) is stored. -/
theorem C4_dispatch_idempotent (db : DB) (tok : Nat → Option String)
    (today ws cid : Nat) :
    ((∃ x ∈ db.standup_responses, x.client_id = cid ∧ x.scheduled_date = today) →
      send_standup_dm db tok today ws cid = (db, [])) ∧
    ((∃ x ∈ db.feedback_responses, x.client_id = cid ∧ x.week_ending = today) →
      send_feedback_dm db tok today ws cid = (db, [])) := by
  constructor
  · rintro ⟨x, hx, e1, e2⟩
    have hne : find_standup_for db.standup_responses cid today ≠ none := by
      intro hn
      have hp := List.find?_eq_none.mp hn x hx
      simp [e1, e2] at hp
    unfold send_standup_dm
    cases hc : findClient db cid with
    | none => rfl
    | some c =>
      cases hac : c.is_active with
      | false => simp [hac]
      | true =>
        cases ht : tok ws with
        | none => simp [hac]
        | some t =>
          by_cases hte : t = ""
          · simp [hac, hte]
          · cases hf : find_standup_for db.standup_responses cid today with
            | none => exact absurd hf hne
            | some y => simp [hac, hte]
  · rintro ⟨x, hx, e1, e2⟩
    have hne : find_feedback_for db.feedback_responses cid today ≠ none := by
      intro hn
      have hp := List.find?_eq_none.mp hn x hx
      simp [e1, e2] at hp
    unfold send_feedback_dm
    cases hc : findClient db cid with
    | none => rfl
    | some c =>
      cases hac : c.is_active with
      | false => simp [hac]
      | true =>
        cases ht : tok ws with
        | none => simp [hac]
        | some t =>
          by_cases hte : t = ""
          · simp [hac, hte]
          · cases hf : find_feedback_for db.feedback_responses cid today with
            | none => exact absurd hf hne
            | some y => simp [hac, hte]

/-- Witness for C4: client 1 already answered the standup of day 5 and the
feedback of week 7; both dispatches are no-ops. -/
theorem C4_dispatch_idempotent_witness :
    send_standup_dm db_c4 tok_c4 5 9 1 = (db_c4, []) ∧
    send_feedback_dm db_c4 tok_c4 7 9 1 = (db_c4, []) :=
  ⟨(C4_dispatch_idempotent db_c4 tok_c4 5 9 1).1 (by decide),
   (C4_dispatch_idempotent db_c4 tok_c4 7 9 1).2 (by decide)⟩

/-- C6: removing an existing client returns true, deletes its row and every
config and response row of the client (cascade) while keeping every other
row, and removes exactly its two scheduled jobs; removing an unknown client
id returns false and changes nothing. -/
theorem C6_remove_client_cascade (st : AppState) (cid : Nat) :
    (∀ c, findClient st.db cid = some c →
      (remove_client st cid).2 = true ∧
      (∀ k ∈ (remove_client st cid).1.db.clients, k.id ≠ cid) ∧
      (∀ k ∈ (remove_client st cid).1.db.standup_configs, k.client_id ≠ cid) ∧
      (∀ k ∈ (remove_client st cid).1.db.feedback_configs, k.client_id ≠ cid) ∧
      (∀ k ∈ (remove_client st cid).1.db.standup_responses, k.client_id ≠ cid) ∧
      (∀ k ∈ (remove_client st cid).1.db.feedback_responses, k.client_id ≠ cid) ∧
      (∀ k ∈ st.db.clients, k.id ≠ cid → k ∈ (remove_client st cid).1.db.clients) ∧
      (∀ k ∈ st.db.standup_configs, k.client_id ≠ cid →
        k ∈ (remove_client st cid).1.db.standup_configs) ∧
      (∀ k ∈ st.db.feedback_configs, k.client_id ≠ cid →
        k ∈ (remove_client st cid).1.db.feedback_configs) ∧
      (∀ k ∈ st.db.standup_responses, k.client_id ≠ cid →
        k ∈ (remove_client st cid).1.db.standup_responses) ∧
      (∀ k ∈ st.db.feedback_responses, k.client_id ≠ cid →
        k ∈ (remove_client st cid).1.db.feedback_responses) ∧
      job_id_standup c.workspace_id cid ∉ (remove_client st cid).1.jobs ∧
      job_id_feedback c.workspace_id cid ∉ (remove_client st cid).1.jobs ∧
      (∀ j ∈ st.jobs, j ≠ job_id_standup c.workspace_id cid →
        j ≠ job_id_feedback c.workspace_id cid → j ∈ (remove_client st cid).1.jobs)) ∧
    (findClient st.db cid = none → remove_client st cid = (st, false)) := by
  constructor
  · intro c hc
    simp only [remove_client, hc]
    simp [removeJobId, List.mem_filter]
    exact ⟨fun k hk h => ⟨hk, h⟩, fun k hk h => ⟨hk, h⟩, fun k hk h => ⟨hk, h⟩,
      fun k hk h => ⟨hk, h⟩, fun k hk h => ⟨hk, h⟩, fun j hj h1 h2 => ⟨hj, h2, h1⟩⟩
  · intro hc
    simp [remove_client, hc]

/-- Witness for C6: removing client 1 of the sample state returns true, and
removing the unknown client 3 returns false with the state unchanged. -/
theorem C6_remove_client_cascade_witness :
    (remove_client st_c6 1).2 = true ∧ remove_client st_c6 3 = (st_c6, false) :=
  ⟨((C6_remove_client_cascade st_c6 1).1 cl_c6 rfl).1,
   (C6_remove_client_cascade st_c6 3).2 rfl⟩

/-- Lemma: looking a client's config up after `setPausedFor` finds the
original config with only its `is_paused` flag replaced. -/
theorem find?_setPausedFor (l : List StandupConfig) (cid : Nat) (v : Bool) :
    (setPausedFor l cid v).find? (fun k => k.client_id == cid)
      = (l.find? (fun k => k.client_id == cid)).map
          (fun k => { k with is_paused := v }) := by
  induction l with
  | nil => rfl
  | cons a t ih =>
    cases ha : (a.client_id == cid) with
    | true =>
      simp only [setPausedFor, List.map_cons, ha, if_true]
      rw [List.find?_cons_of_pos _ (by simpa using ha),
        List.find?_cons_of_pos _ (by simpa using ha)]
      rfl
    | false =>
      simp only [setPausedFor, List.map_cons, ha, if_false]
      rw [List.find?_cons_of_neg _ (by simpa using ha),
        List.find?_cons_of_neg _ (by simpa using ha)]
      exact ih

/-- Lemma: two successive `is_paused` updates of the same client's config
collapse to the last one. -/
theorem setPausedFor_setPausedFor (l : List StandupConfig) (cid : Nat) (v w : Bool) :
    setPausedFor (setPausedFor l cid v) cid w = setPausedFor l cid w := by
  unfold setPausedFor
  rw [List.map_map]
  refine congrArg (fun f => List.map f l) ?_
  funext k
  by_cases hk : k.client_id = cid
  · simp [Function.comp, hk]
  · simp [Function.comp, hk]

/-- C5: for a client with a standup config, pausing and then resuming
succeeds (both return true) and leaves every field of the config except the
`is_paused` flag — in particular `schedule_type` and `schedule_time` — and
every other table of the database exactly as before; the only rows touched
are the `is_paused` flags of that client's config. -/
theorem C5_pause_resume_frame (st : AppState) (cid : Nat) (c : Client)
    (cfg : StandupConfig) (hc : findClient st.db cid = some c)
    (hcfg : findStandupConfig st.db cid = some cfg) :
    (pause_client_standups st cid).2 = true ∧
    (resume_client_standups (pause_client_standups st cid).1 cid).2 = true ∧
    findStandupConfig
        (resume_client_standups (pause_client_standups st cid).1 cid).1.db cid
      = some { cfg with is_paused := false } ∧
    (resume_client_standups (pause_client_standups st cid).1 cid).1.db.clients
      = st.db.clients ∧
    (resume_client_standups (pause_client_standups st cid).1 cid).1.db.feedback_configs
      = st.db.feedback_configs ∧
    (resume_client_standups (pause_client_standups st cid).1 cid).1.db.standup_responses
      = st.db.standup_responses ∧
    (resume_client_standups (pause_client_standups st cid).1 cid).1.db.feedback_responses
      = st.db.feedback_responses ∧
    (resume_client_standups (pause_client_standups st cid).1 cid).1.db.standup_configs
      = setPausedFor st.db.standup_configs cid false := by
  have hcfg0 : st.db.standup_configs.find? (fun k => k.client_id == cid) = some cfg := hcfg
  have hp : pause_client_standups st cid
      = (⟨{ st.db with standup_configs := setPausedFor st.db.standup_configs cid true },
          removeJobId st.jobs (job_id_standup c.workspace_id cid)⟩, true) := by
    simp only [pause_client_standups, hc, hcfg]
  have hc1 : findClient
      { st.db with standup_configs := setPausedFor st.db.standup_configs cid true } cid
      = some c := hc
  have hcfg1 : findStandupConfig
      { st.db with standup_configs := setPausedFor st.db.standup_configs cid true } cid
      = some { cfg with is_paused := true } := by
    show (setPausedFor st.db.standup_configs cid true).find? (fun k => k.client_id == cid)
      = some { cfg with is_paused := true }
    rw [find?_setPausedFor, hcfg0]
    rfl
  rw [hp]
  have hr : resume_client_standups
      ⟨{ st.db with standup_configs := setPausedFor st.db.standup_configs cid true },
        removeJobId st.jobs (job_id_standup c.workspace_id cid)⟩ cid
      = (⟨{ st.db with standup_configs := setPausedFor st.db.standup_configs cid false },
          add_standup_job
            { st.db with standup_configs := setPausedFor st.db.standup_configs cid false }
            (removeJobId st.jobs (job_id_standup c.workspace_id cid))
            { cfg with is_paused := false }⟩, true) := by
    simp only [resume_client_standups, hc1, hcfg1]
    rw [setPausedFor_setPausedFor]
  rw [hr]
  refine ⟨rfl, rfl, ?_, rfl, rfl, rfl, rfl, rfl⟩
  show (setPausedFor st.db.standup_configs cid false).find? (fun k => k.client_id == cid)
    = some { cfg with is_paused := false }
  rw [find?_setPausedFor, hcfg0]
  rfl

/-- Witness for C5: pausing then resuming the sample daily-09:00 client
keeps its schedule and only toggles the flag. -/
theorem C5_pause_resume_frame_witness :
    (pause_client_standups st_c5 1).2 = true ∧
    (resume_client_standups (pause_client_standups st_c5 1).1 1).2 = true ∧
    findStandupConfig
        (resume_client_standups (pause_client_standups st_c5 1).1 1).1.db 1
      = some { cfg_c5 with is_paused := false } ∧
    (resume_client_standups (pause_client_standups st_c5 1).1 1).1.db.clients
      = st_c5.db.clients ∧
    (resume_client_standups (pause_client_standups st_c5 1).1 1).1.db.feedback_configs
      = st_c5.db.feedback_configs ∧
    (resume_client_standups (pause_client_standups st_c5 1).1 1).1.db.standup_responses
      = st_c5.db.standup_responses ∧
    (resume_client_standups (pause_client_standups st_c5 1).1 1).1.db.feedback_responses
      = st_c5.db.feedback_responses ∧
    (resume_client_standups (pause_client_standups st_c5 1).1 1).1.db.standup_configs
      = setPausedFor st_c5.db.standup_configs 1 false :=
  C5_pause_resume_frame st_c5 1 cl_c5 cfg_c5 rfl rfl

/-- Lemma: the retry loop makes at most `fuel + 1` calls. -/
theorem slack_api_retry_calls_le (beh : Nat → CallResult) (jit : Nat → ℚ) :
    ∀ fuel attempt, (slack_api_retry beh jit attempt fuel).calls ≤ fuel + 1 := by
  intro fuel
  induction fuel with
  | zero =>
    intro attempt
    cases hb : beh attempt <;> simp [slack_api_retry, hb]
  | succ n ih =>
    intro attempt
    cases hb : beh attempt with
    | ok v => simp [slack_api_retry, hb]
    | slackErr e ra =>
      by_cases h1 : e = "ratelimited"
      · simp only [slack_api_retry, hb, h1, if_true]
        have := ih (attempt + 1)
        show (slack_api_retry beh jit (attempt + 1) n).calls + 1 ≤ n + 1 + 1
        omega
      · by_cases h2 : e ∈ transient_errors
        · simp only [slack_api_retry, hb]
          rw [if_neg h1, if_pos h2]
          have := ih (attempt + 1)
          show (slack_api_retry beh jit (attempt + 1) n).calls + 1 ≤ n + 1 + 1
          omega
        · simp only [slack_api_retry, hb]
          rw [if_neg h1, if_neg h2]
          simp
    | netErr =>
      simp only [slack_api_retry, hb]
      have := ih (attempt + 1)
      show (slack_api_retry beh jit (attempt + 1) n).calls + 1 ≤ n + 1 + 1
      omega

/-- Lemma: every sleep the retry loop performs equals the policy delay of
the attempt it follows. -/
theorem slack_api_retry_sleeps (beh : Nat → CallResult) (jit : Nat → ℚ) :
    ∀ fuel attempt i d,
      (slack_api_retry beh jit attempt fuel).sleeps.get? i = some d →
      d = policyDelay beh jit (attempt + i) := by
  intro fuel
  induction fuel with
  | zero =>
    intro attempt i d h
    cases hb : beh attempt <;> simp [slack_api_retry, hb] at h
  | succ n ih =>
    intro attempt i d h
    cases hb : beh attempt with
    | ok v => simp [slack_api_retry, hb] at h
    | slackErr e ra =>
      by_cases h1 : e = "ratelimited"
      · simp only [slack_api_retry, hb, h1, if_true] at h
        cases i with
        | zero =>
          simp at h
          subst h1
          simp [policyDelay, hb, ← h]
        | succ j =>
          have hd := ih (attempt + 1) j d (by simpa using h)
          rw [hd]
          congr 1
          omega
      · by_cases h2 : e ∈ transient_errors
        · simp only [slack_api_retry, hb] at h
          rw [if_neg h1, if_pos h2] at h
          cases i with
          | zero =>
            simp at h
            simp [policyDelay, hb, h1, ← h]
          | succ j =>
            have hd := ih (attempt + 1) j d (by simpa using h)
            rw [hd]
            congr 1
            omega
        · simp only [slack_api_retry, hb] at h
          rw [if_neg h1, if_neg h2] at h
          simp at h
    | netErr =>
      simp only [slack_api_retry, hb] at h
      cases i with
      | zero =>
        simp at h
        simp [policyDelay, hb, ← h]
      | succ j =>
        have hd := ih (attempt + 1) j d (by simpa using h)
        rw [hd]
        congr 1
        omega

/-- Counterexample for C3: on a behaviour whose first call hits the
transient error internal_error and whose second call succeeds, the retry
wrapper used by the standup dispatch succeeds after two calls, while the
feedback dispatch — which posts directly, not through the wrapper — makes a
single call and raises: the feedback prompt is not posted through the retry
wrapper. -/
theorem C3_counterexample_feedback_not_wrapped :
    (standup_post beh_c3 jit_zero).outcome = .success 1 ∧
    (standup_post beh_c3 jit_zero).calls = 2 ∧
    feedback_post beh_c3 = ⟨.raised "internal_error", [], 1⟩ := by
  refine ⟨?_, ?_, ?_⟩ <;> decide

/-- C3 (amended): the standup dispatch posts through the retry wrapper
(max_retries = 3): a first-call success returns at once; a non-retryable
Slack error raises immediately after one call with no sleep; at most four
calls are ever made; every sleep performed equals the policy delay — the
capped Retry-After hint on rate limiting, capped exponential backoff with
jitter on transient errors; when every attempt hits a transient error the
error is raised after four calls and three backoff sleeps. The feedback
dispatch, by contrast, posts directly: always exactly one call and no
sleeps. -/
theorem C3_amended_retry_policy (beh : Nat → CallResult) (jit : Nat → ℚ) :
    (∀ v, beh 0 = .ok v → standup_post beh jit = ⟨.success v, [], 1⟩) ∧
    (∀ e ra, beh 0 = .slackErr e ra → e ≠ "ratelimited" → e ∉ transient_errors →
      standup_post beh jit = ⟨.raised e, [], 1⟩) ∧
    (standup_post beh jit).calls ≤ 4 ∧
    (∀ i d, (standup_post beh jit).sleeps.get? i = some d →
      d = policyDelay beh jit i) ∧
    ((∀ n, beh n = .slackErr "internal_error" none) →
      standup_post beh jit
        = ⟨.raised "internal_error",
           [backoffDelay jit 0, backoffDelay jit 1, backoffDelay jit 2], 4⟩) ∧
    (feedback_post beh).calls = 1 ∧
    (feedback_post beh).sleeps = [] := by
  refine ⟨?_, ?_, ?_, ?_, ?_, ?_, ?_⟩
  · intro v hb
    simp [standup_post, send_message_with_retry, slack_api_retry, hb]
  · intro e ra hb h1 h2
    simp only [standup_post, send_message_with_retry, slack_api_retry, hb]
    rw [if_neg h1, if_neg h2]
  · exact slack_api_retry_calls_le beh jit 3 0
  · intro i d h
    have hd := slack_api_retry_sleeps beh jit 3 0 i d h
    simpa using hd
  · intro hAll
    have hne : ("internal_error" : String) ≠ "ratelimited" := by decide
    have hmem : ("internal_error" : String) ∈ transient_errors := by decide
    simp only [standup_post, send_message_with_retry, slack_api_retry, hAll 0,
      hAll 1, hAll 2, hAll 3]
    simp only [if_neg hne, if_pos hmem]
  · cases hb : beh 0 <;> simp [feedback_post, hb]
  · cases hb : beh 0 <;> simp [feedback_post, hb]

/-- Witness for C3 (amended): a behaviour failing with the non-retryable
error invalid_auth raises at once through the wrapper, and the direct
feedback post makes its single call. -/
theorem C3_amended_retry_policy_witness :
    standup_post beh_c3w jit_zero = ⟨.raised "invalid_auth", [], 1⟩ ∧
    (feedback_post beh_c3w).calls = 1 :=
  ⟨(C3_amended_retry_policy beh_c3w jit_zero).2.1 "invalid_auth" none rfl
      (by decide) (by decide),
   (C3_amended_retry_policy beh_c3w jit_zero).2.2.2.2.2.1⟩

end VC



